import Mathlib

/-!
Verification of the multi-provider LLM idea-generation pipeline of the
Exoplanet Explorer repository (`backend/agents/`): provider registry and
credential selection (`ideas_orchestator/common.py`, `ideas_orchestator/utils.py`,
`generate_ideas/utils.py`), the response gateway
(`ideas_orchestator/LLM_response.py`), the idea search tree and judge
(`ideas_orchestator/generate_ideas.py`) and the prompt relay
(`conection/conection.py`).

External effects are made explicit:
* the process environment is a map `String → Option String`;
* `random.choice` draws from a pre-sampled stream `rng : Nat → Nat`
  (the value `rng i` selects index `rng i % length` of the list, so every
  index is reachable by some stream);
* each underlying chat-completion invocation (`chain.invoke`) is an oracle
  `Nat → String → String → Except String String`, taking the invocation
  counter and the dispatched system/human prompts; `Except.error e` models
  the Python call raising an exception with message `e`;
* Python exceptions are modelled with `Except String`.
-/

/-! ## Character-list string primitives (Python `in`, `count`, `replace`, `split`) -/

/-- Python `pat in s` (substring test), on character lists. -/
def hasSub (pat : List Char) : List Char → Bool
  | [] => pat.isPrefixOf []
  | c :: rest => pat.isPrefixOf (c :: rest) || hasSub pat rest

/-- Number of start positions at which `pat` occurs in `s`.  For patterns
without overlapping occurrences this agrees with Python `s.count(pat)`. -/
def countSub (pat : List Char) : List Char → Nat
  | [] => 0
  | c :: rest => (if pat.isPrefixOf (c :: rest) then 1 else 0) + countSub pat rest

/-- Python `s.replace(pat, rep)`: replace all non-overlapping occurrences,
scanning left to right. -/
def replaceSub (pat rep : List Char) : List Char → List Char
  | [] => []
  | c :: rest =>
    if pat.isPrefixOf (c :: rest) then
      rep ++ replaceSub pat rep (rest.drop (pat.length - 1))
    else
      c :: replaceSub pat rep rest
termination_by s => s.length
decreasing_by
  · simp only [List.length_cons, List.length_drop]
    omega
  · simp

/-- Python `s.split(sep)` for non-empty `sep`: cut at each non-overlapping
occurrence, scanning left to right. -/
def splitOnSub (pat : List Char) : List Char → List (List Char)
  | [] => [[]]
  | c :: rest =>
    if pat.isPrefixOf (c :: rest) then
      [] :: splitOnSub pat (rest.drop (pat.length - 1))
    else
      match splitOnSub pat rest with
      | [] => [[c]]
      | s :: ss => (c :: s) :: ss
termination_by s => s.length
decreasing_by
  · simp only [List.length_cons, List.length_drop]
    omega
  · simp

/-- Python `str(n)` for a natural number: decimal digits. -/
def natStr (n : Nat) : List Char :=
  if n < 10 then [Char.ofNat (48 + n)]
  else natStr (n / 10) ++ [Char.ofNat (48 + n % 10)]
termination_by n
decreasing_by
  exact Nat.div_lt_self (by omega) (by omega)

/-! ## Python dict / random helpers -/

/-- Python dict lookup on an insertion-ordered association list. -/
def lookup (m : List (String × List String)) (k : String) : Option (List String) :=
  (m.find? (fun p => p.1 == k)).map Prod.snd

/-- `random.choice(l)` with the random draw `r` supplied externally: element
at index `r % l.length`.  All call sites pass non-empty lists, so the
default is never produced. -/
def choiceL {α : Type} (d : α) (r : Nat) (l : List α) : α :=
  l.getD (r % l.length) d

/-- Python rendering of a list of strings, as in
`f"{list(api_keys.keys())}"`. -/
def pyStrList (l : List String) : String :=
  "[" ++ String.intercalate ", " (l.map (fun s => "\x27" ++ s ++ "\x27")) ++ "]"

/-! ## Registry constants (`cloud/cloud_constants.py`) -/

/-- `models_dict` from `cloud/cloud_constants.py`. -/
def models_dict : List (String × List String) :=
  [("groq", ["moonshotai/kimi-k2-instruct-0905",
             "deepseek-r1-distill-llama-70b",
             "meta-llama/llama-4-maverick-17b-128e-instruct"]),
   ("sambanova", ["gpt-oss-120b",
                  "DeepSeek-V3.1-Terminus",
                  "DeepSeek-V3.1",
                  "Llama-4-Maverick-17B-128E-Instruct"]),
   ("cerebras", ["gpt-oss-120b",
                 "llama-4-maverick-17b-128e-instruct",
                 "qwen-3-235b-a22b-instruct-2507",
                 "qwen-3-235b-a22b-thinking-2507"]),
   ("googleaistudio", ["gemini-2.5-pro"])]

/-- `api_keys` from `cloud/cloud_constants.py`: each provider holds one
(empty placeholder) credential string. -/
def api_keys : List (String × List String) :=
  [("groq", [""]), ("sambanova", [""]), ("cerebras", [""]), ("googleaistudio", [""])]

/-! ## Process state -/

/-- The process environment: variable name to value. -/
def EnvMap : Type := String → Option String

/-- `os.environ[n] = v`. -/
def setEnv (n v : String) (e : EnvMap) : EnvMap :=
  fun k => if k = n then some v else e k

/-- Fixed external context of a run: the chat-call oracle, the pre-sampled
random stream and the wall-clock string rendered by `colombia_now()`. -/
structure Ctx where
  oracle : Nat → String → String → Except String String
  rng : Nat → Nat
  clock : String

/-- Mutable process state threaded through the pipeline: the environment,
the module-level `human_list` cache, the number of underlying chat-completion
calls made so far, and the position in the random stream. -/
structure PState where
  env : EnvMap
  humanList : List String
  gwCalls : Nat
  rngIdx : Nat

/-! ## Credential selection (`ideas_orchestator/common.py` / `utils.py`,
`generate_ideas/utils.py`) -/

/-- Error message of `common.get_random_service_key` for an unknown service. -/
def msgUnknownService (registry : List (String × List String)) (s : String) : String :=
  "Servicio \x27" ++ s ++ "\x27 no encontrado. Los servicios disponibles son: "
    ++ pyStrList (registry.map Prod.fst)

/-- Error message of `common.get_random_service_key` for a service with no keys. -/
def msgNoKeys (s : String) : String :=
  "No se encontraron API keys para el servicio \x27" ++ s ++ "\x27."

/-- The `if/elif` chain of `common.get_random_service_key` that publishes the
chosen key into the provider-specific environment variable. -/
def publishKey (service key : String) (e : EnvMap) : EnvMap :=
  if service = "groq" then setEnv "GROQ_API_KEY" key e
  else if service = "sambanova" then setEnv "SAMBANOVA_API_KEY" key e
  else if service = "cerebras" then setEnv "CEREBRAS_API_KEY" key e
  else if service = "googleaistudio" then setEnv "GOOGLE_API_KEY" key e
  else e

/-- `ideas_orchestator/common.py : get_random_service_key(service_name)`.
The Python function reads the module-global `api_keys`; the registry is a
parameter here and is instantiated with `api_keys` at every pipeline call
site. -/
def get_random_service_key (registry : List (String × List String))
    (service_name : String) (ctx : Ctx) (st : PState) :
    Except String ((String × String) × PState) :=
  match lookup registry service_name with
  | none => Except.error (msgUnknownService registry service_name)
  | some keys_for_service =>
    if keys_for_service.isEmpty then Except.error (msgNoKeys service_name)
    else
      let key := choiceL "" (ctx.rng st.rngIdx) keys_for_service
      let st1 : PState :=
        { st with rngIdx := st.rngIdx + 1, env := publishKey service_name key st.env }
      Except.ok ((service_name, key), st1)

/-- `generate_ideas/utils.py : get_random_key_for_service(service_name)`;
its body is identical to `common.get_random_service_key`. -/
def get_random_key_for_service (registry : List (String × List String))
    (service_name : String) (ctx : Ctx) (st : PState) :
    Except String ((String × String) × PState) :=
  match lookup registry service_name with
  | none => Except.error (msgUnknownService registry service_name)
  | some keys_for_service =>
    if keys_for_service.isEmpty then Except.error (msgNoKeys service_name)
    else
      let key := choiceL "" (ctx.rng st.rngIdx) keys_for_service
      let st1 : PState :=
        { st with rngIdx := st.rngIdx + 1, env := publishKey service_name key st.env }
      Except.ok ((service_name, key), st1)

/-- The four independent `if` statements of the zero-argument
`get_random_service_key` that publish the chosen key. -/
def publishKeyIfs (service key : String) (e : EnvMap) : EnvMap :=
  let e1 := if service = "groq" then setEnv "GROQ_API_KEY" key e else e
  let e2 := if service = "sambanova" then setEnv "SAMBANOVA_API_KEY" key e1 else e1
  let e3 := if service = "cerebras" then setEnv "CEREBRAS_API_KEY" key e2 else e2
  if service = "googleaistudio" then setEnv "GOOGLE_API_KEY" key e3 else e3

/-- The flattened list comprehension
`[(service, key) for service, keys in api_keys.items() for key in keys]`. -/
def allPairs (registry : List (String × List String)) : List (String × String) :=
  registry.flatMap (fun p => p.2.map (fun k => (p.1, k)))

/-- `ideas_orchestator/utils.py : get_random_service_key()` (zero-argument
variant, duplicated in `generate_ideas/utils.py`): flatten the registry into
`(service, key)` pairs and pick one at random. -/
def get_random_service_key0 (registry : List (String × List String))
    (ctx : Ctx) (st : PState) : Except String ((String × String) × PState) :=
  let all_pairs := allPairs registry
  if all_pairs.isEmpty then Except.error "No API keys loaded."
  else
    let api_key := choiceL ("", "") (ctx.rng st.rngIdx) all_pairs
    let st1 : PState :=
      { st with rngIdx := st.rngIdx + 1,
                env := publishKeyIfs api_key.1 api_key.2 st.env }
    Except.ok (api_key, st1)

/-! ## Prompt constants (`prompt/prompt.py`) and derived prompt builders -/

/-- `system` from `prompt/prompt.py`. -/
def systemPrompt : String :=
  "\nYou are an expert in AI, astronomy, and exoplanet hunting using the latest machine learning and artificial intelligence \ntechnologies\n"

/-- `human` from `prompt/prompt.py`. -/
def humanPrompt : String :=
  "\nNaturally, the main way in which exoplanets are “hunted” is through the analysis of the light intensity emitted by stars,\nfrom which we can obtain data and intensity/time graphs. These can be labeled or unlabeled, and are used to train models \nso that they can learn to perform the assigned task. I would therefore like you to take on the task of generating original \nand innovative ideas for AI models that, trained solely on this type of data, could be used in exoplanet detection. I want \nyou to come up with ideas that could become SOTA models, and to show how, using only one GPU and the libraries lightkurve \nand astroquery, we could build an MVP of the new ML model and/or architecture with viable and promising results that \ndemonstrate true potential for SOTA performance. With these resource constraints, would it be possible to create a fully \nfunctional MVP? Keep in mind that this is for the NASA Space Apps Challenge, so we only have two days of intensive coding \nto test ideas and build MVPs. How many MVPs would you recommend developing in these two days in order to test candidates \nand present those with the greatest potential to produce promising ML models that could reach SOTA? Remember that we want \nto win the international award and achieve something far more novel than any other team taking on this challenge. Focus \nmainly on the generation and refinement of ideas, not on writing code, in your next response. Remember that the model \nwill be trained only on light intensity/time data for identification."

/-- The `human_hour_context` string built inside `human_variations`. -/
def humanHourContext (clock : String) : String :=
  "Redact the following prompt with your own words: \"" ++ humanPrompt
    ++ " First, keep in mind that the current time is sunday " ++ clock
    ++ ", so we just have that quantity of time to create, train and test the ML model"

/-- The refinement prompt of `arbol_busqueda_ideas`, with the current idea
spliced in verbatim. -/
def refinementPrompt (idea : String) : String :=
  "\n            Toma la siguiente idea y mejórala. Hazla más innovadora, más específica sobre el MVP\n            y con más potencial para convertirse en un modelo SOTA (State-Of-The-Art).\n            No te limites a repetir, debes añadir valor y evolucionar el concepto.\n\n            IDEA A REFINAR:\n            ---\n            "
    ++ idea ++ "\n            ---   \n            "

/-- Modelled from the spec: the judging-prompt template file
`PROMPT_JUICIO.TXT` is read at startup by `generate_ideas.py` but is not part
of the repository sources; per spec §6 it is a fixed evaluation template
containing the two named placeholders `X` and `ideas_to_evaluate`. -/
def prompt_juicio : String :=
  "Evalua las siguientes \x7bX\x7d ideas y elige la mejor.\n\x7bideas_to_evaluate\x7d"

/-- Python `prompt_juicio.format(X=X, ideas_to_evaluate=ideas)`: substitute
both named fields of the template.  The replacement texts are not rescanned,
matching `str.format`. -/
def formatJuicio (X : Nat) (ideas : String) : String :=
  String.mk (replaceSub "\x7bideas_to_evaluate\x7d".data ideas.data
    (replaceSub "\x7bX\x7d".data (natStr X) prompt_juicio.data))

/-- The marker heading each enumerated idea in the judging prompt. -/
def ideaMarker : List Char := "--- IDEA".data

/-- One `f"--- IDEA {idx+1} ---\n{idea}\n\n"` chunk of the judging block. -/
def judgeChunk (idx : Nat) (idea : String) : String :=
  "--- IDEA " ++ String.mk (natStr (idx + 1)) ++ " ---\n" ++ idea ++ "\n\n"

/-- The `ideas_para_juzgar` accumulation loop of `arbol_busqueda_ideas`,
starting at enumeration index `i`. -/
def buildJudgeBlockAux : Nat → List String → String
  | _, [] => ""
  | i, idea :: rest => judgeChunk i idea ++ buildJudgeBlockAux (i + 1) rest

/-- `ideas_para_juzgar`: the judging block built from the final ideas. -/
def buildJudgeBlock (ideas : List String) : String :=
  buildJudgeBlockAux 0 ideas

/-! ## Response gateway (`ideas_orchestator/LLM_response.py`) -/

/-- The literal pattern escaped by the gateway. -/
def errPat : List Char := "\x7berror\x7d".data

/-- Its escaped replacement. -/
def errRep : List Char := "\x7b\x7berror\x7d\x7d".data

/-- `s.replace('{error}', '{{error}}') if '{error}' in s else s`. -/
def escapeErr (s : String) : String :=
  if hasSub errPat s.data then String.mk (replaceSub errPat errRep s.data) else s

/-- `obtener_respuesta_groq`: the whole body sits in a `try/except`, so the
environment check yields an error string and a raised exception `e` is caught
and rendered as `f"[ERROR]: {e}"`.  `invoke` is the outcome of
`chain.invoke`. -/
def obtener_respuesta_groq (env : EnvMap) (invoke : Except String String) : String :=
  if (env "GROQ_API_KEY").isSome then
    match invoke with
    | Except.ok content => content
    | Except.error e => "[ERROR]: " ++ e
  else "[ERROR]: Falta la variable de entorno GROQ_API_KEY"

/-- `obtener_respuesta_sambanova`: no `try/except` — the content is returned
on success and an exception propagates to the caller. -/
def obtener_respuesta_sambanova (invoke : Except String String) : Except String String :=
  invoke

/-- `obtener_respuesta_cerebras`: no `try/except`. -/
def obtener_respuesta_cerebras (invoke : Except String String) : Except String String :=
  invoke

/-- `obtener_respuesta_google`: no `try/except`. -/
def obtener_respuesta_google (invoke : Except String String) : Except String String :=
  invoke

/-- `ideas_orchestator/LLM_response.py : obtener_respuesta`.  Selects and
publishes a credential (which may raise), escapes `{error}` in both prompts,
and dispatches on the provider name.  The final `isinstance(result, dict)`
check of the source is a no-op, since every provider function returns a
string (or raises). -/
def obtener_respuesta (registry : List (String × List String))
    (cloud_service system human modelo : String) (ctx : Ctx) (st : PState) :
    Except String (String × PState) :=
  match get_random_service_key registry cloud_service ctx st with
  | Except.error e => Except.error e
  | Except.ok (_, st1) =>
    let system_safe := escapeErr system
    let human_safe := escapeErr human
    if cloud_service = "groq" then
      Except.ok (obtener_respuesta_groq st1.env (ctx.oracle st1.gwCalls system_safe human_safe),
        { st1 with gwCalls := st1.gwCalls + 1 })
    else if cloud_service = "sambanova" then
      (obtener_respuesta_sambanova (ctx.oracle st1.gwCalls system_safe human_safe)).map
        (fun r => (r, { st1 with gwCalls := st1.gwCalls + 1 }))
    else if cloud_service = "cerebras" then
      (obtener_respuesta_cerebras (ctx.oracle st1.gwCalls system_safe human_safe)).map
        (fun r => (r, { st1 with gwCalls := st1.gwCalls + 1 }))
    else if cloud_service = "googleaistudio" then
      (obtener_respuesta_google (ctx.oracle st1.gwCalls system_safe human_safe)).map
        (fun r => (r, { st1 with gwCalls := st1.gwCalls + 1 }))
    else
      Except.ok ("Servicio no soportado", st1)

/-! ## Human-context variation (`ideas_orchestator/LLM_response.py`) -/

/-- The `n`-fold sequential list comprehension
`[obtener_respuesta('groq', "", human_hour_context, models_dict['groq'][0]) for _ in range(n)]`. -/
def hvCalls (ctx : Ctx) (ctxStr : String) : Nat → PState → Except String (List String × PState)
  | 0, st => Except.ok ([], st)
  | n + 1, st =>
    match obtener_respuesta api_keys "groq" "" ctxStr
        (((lookup models_dict "groq").getD []).getD 0 "") ctx st with
    | Except.error e => Except.error e
    | Except.ok (s, st1) =>
      match hvCalls ctx ctxStr n st1 with
      | Except.error e => Except.error e
      | Except.ok (l, st2) => Except.ok (s :: l, st2)

/-- `human_variations()`: build the hour context, fill the module-level
`human_list` cache with 5 gateway paraphrases when it is empty, and return
the cache. -/
def human_variations (ctx : Ctx) (st : PState) : Except String (List String × PState) :=
  let human_hour_context := humanHourContext ctx.clock
  if st.humanList.isEmpty then
    match hvCalls ctx human_hour_context 5 st with
    | Except.error e => Except.error e
    | Except.ok (l, st1) => Except.ok (l, { st1 with humanList := l })
  else Except.ok (st.humanList, st)

/-! ## Random model selection (`ideas_orchestator/common.py`) -/

/-- `elegir_modelo_aleatorio(models_dict)`: a random provider, then a random
model of that provider.  Consumes two draws of the random stream. -/
def elegir_modelo_aleatorio (models : List (String × List String))
    (ctx : Ctx) (st : PState) : (String × String) × PState :=
  let proveedor_elegido := choiceL "" (ctx.rng st.rngIdx) (models.map Prod.fst)
  let modelos_del_proveedor := (lookup models proveedor_elegido).getD []
  let modelo_elegido := choiceL "" (ctx.rng (st.rngIdx + 1)) modelos_del_proveedor
  ((proveedor_elegido, modelo_elegido), { st with rngIdx := st.rngIdx + 2 })

/-! ## Idea search tree (`ideas_orchestator/generate_ideas.py`) -/

/-- The inner refinement loop of `arbol_busqueda_ideas`: refine `idea` the
given number of times, each round with a fresh random provider/model. -/
def refineLoop (system : String) (ctx : Ctx) :
    Nat → String → PState → Except String (String × PState)
  | 0, idea, st => Except.ok (idea, st)
  | j + 1, idea, st =>
    let picked := elegir_modelo_aleatorio models_dict ctx st
    let cloud_ref := picked.1.1
    let model_ref := picked.1.2
    match obtener_respuesta api_keys cloud_ref system (refinementPrompt idea) model_ref
        ctx picked.2 with
    | Except.error e => Except.error e
    | Except.ok (idea1, st2) => refineLoop system ctx j idea1 st2

/-- The outer branch loop of `arbol_busqueda_ideas`: for each remaining
branch, generate an initial idea from a random human-context variant, refine
it `Y` times, and collect the branch results in order. -/
def branchLoop (system : String) (Y : Nat) (ctx : Ctx) :
    Nat → PState → Except String (List String × PState)
  | 0, st => Except.ok ([], st)
  | i + 1, st =>
    let picked := elegir_modelo_aleatorio models_dict ctx st
    let cloud := picked.1.1
    let model := picked.1.2
    match human_variations ctx picked.2 with
    | Except.error e => Except.error e
    | Except.ok (variants, st2) =>
      let hv := choiceL "" (ctx.rng st2.rngIdx) variants
      let st3 : PState := { st2 with rngIdx := st2.rngIdx + 1 }
      match obtener_respuesta api_keys cloud system hv model ctx st3 with
      | Except.error e => Except.error e
      | Except.ok (idea0, st4) =>
        match refineLoop system ctx Y idea0 st4 with
        | Except.error e => Except.error e
        | Except.ok (ideaFinal, st5) =>
          match branchLoop system Y ctx i st5 with
          | Except.error e => Except.error e
          | Except.ok (ideas, st6) => Except.ok (ideaFinal :: ideas, st6)

/-- `arbol_busqueda_ideas(models_dict, system, X, Y)`.  The Python function
returns only `analisis_final` (the judge verdict); the internal list
`ideas_refinadas_finales` is exposed as the second component of the result
so that properties about it can be stated. -/
def arbol_busqueda_ideas (system : String) (X Y : Nat) (ctx : Ctx) (st : PState) :
    Except String ((String × List String) × PState) :=
  match branchLoop system Y ctx X st with
  | Except.error e => Except.error e
  | Except.ok (ideas_refinadas_finales, st1) =>
    let ideas_para_juzgar := buildJudgeBlock ideas_refinadas_finales
    let prompt_juicio_formatted := formatJuicio X ideas_para_juzgar
    match obtener_respuesta api_keys "googleaistudio" system prompt_juicio_formatted
        "gemini-2.5-pro" ctx st1 with
    | Except.error e => Except.error e
    | Except.ok (analisis_final, st2) =>
      Except.ok ((analisis_final, ideas_refinadas_finales), st2)

/-! ## Prompt relay (`conection/conection.py`) -/

/-- The `prompt_conection` f-string with the meta-verdict spliced in. -/
def promptConection (final_conclusion : String) : String :=
  "\n    anteriormente se hizo un proceso de busqueda y analisis de nuevas ideas de arquitecturas para exoplanet hunting.\n\n    con esto se llegó a las siguientes conclusiones:\n\n    "
    ++ final_conclusion
    ++ "\n\n    Ahora lo que debes hacer es crear un prompt para un LLM Agente ML Engineer que cree el modelo, lo entrene con los datos necesarios\n    (que en este caso son solo datos de intensidad de luz/tiempo) y nos muestre los resultados por medio de metricas y\n    graficos. Escribe el prompt entre ```\n    "

/-- The triple-backtick fence. -/
def fenceL : List Char := "```".data

/-- The message of the Python `IndexError` raised by `[1]` on a too-short
list. -/
def idxErrMsg : String := "IndexError: list index out of range"

/-- `conection/conection.py : prompt_to_llm_engineer(final_conclusion)`:
random provider/model, an extra credential selection, one gateway call, and
extraction of `.split("```")[1]` from the response. -/
def prompt_to_llm_engineer (final_conclusion : String) (ctx : Ctx) (st : PState) :
    Except String (String × PState) :=
  let prompt_conection := promptConection final_conclusion
  let picked := elegir_modelo_aleatorio models_dict ctx st
  let cloud := picked.1.1
  let model := picked.1.2
  match get_random_service_key api_keys cloud ctx picked.2 with
  | Except.error e => Except.error e
  | Except.ok (_, st2) =>
    match obtener_respuesta api_keys cloud systemPrompt prompt_conection model ctx st2 with
    | Except.error e => Except.error e
    | Except.ok (resp, st3) =>
      match splitOnSub fenceL resp.data with
      | _ :: x :: _ => Except.ok (String.mk x, st3)
      | _ => Except.error idxErrMsg

/-! ## Concrete fixtures used by witnesses and counterexamples -/

/-- An empty process environment. -/
def env0 : EnvMap := fun _ => none

/-- Initial process state: empty environment, cold `human_list` cache. -/
def st0 : PState := ⟨env0, [], 0, 0⟩

/-- Process state whose `human_list` cache is already populated. -/
def stWarm : PState := ⟨env0, ["hv"], 0, 0⟩

/-- A context whose chat calls always succeed with `"R"` and whose random
stream is constantly `0`. -/
def ctx0 : Ctx := ⟨fun _ _ _ => Except.ok "R", fun _ => 0, "T"⟩

/-! ## Helper lemmas -/

theorem choiceL_mem {α : Type} (d : α) (r : Nat) (l : List α) (h : l ≠ []) :
    choiceL d r l ∈ l := by
  have hlen : 0 < l.length := List.length_pos.mpr h
  have hlt : r % l.length < l.length := Nat.mod_lt _ hlen
  unfold choiceL
  rw [List.getD_eq_getElem l d hlt]
  exact List.getElem_mem hlt

theorem choiceL_singleton {α : Type} (d x : α) (r : Nat) :
    choiceL d r [x] = x := by
  simp [choiceL, Nat.mod_one]

theorem gsk_found {registry : List (String × List String)} {P : String}
    {keys : List String} (ctx : Ctx) (st : PState)
    (h : lookup registry P = some keys) (hne : keys ≠ []) :
    get_random_service_key registry P ctx st =
      Except.ok ((P, choiceL "" (ctx.rng st.rngIdx) keys),
        { st with rngIdx := st.rngIdx + 1,
                  env := publishKey P (choiceL "" (ctx.rng st.rngIdx) keys) st.env }) := by
  unfold get_random_service_key
  rw [h]
  simp [List.isEmpty_iff, hne]

theorem lookup_api_of_mem {P : String} (hP : P ∈ api_keys.map Prod.fst) :
    lookup api_keys P = some [""] := by
  simp [api_keys] at hP
  rcases hP with h | h | h | h <;> subst h <;> rfl

theorem gsk_api {P : String} (hP : P ∈ api_keys.map Prod.fst)
    (ctx : Ctx) (st : PState) :
    get_random_service_key api_keys P ctx st =
      Except.ok ((P, ""),
        { st with rngIdx := st.rngIdx + 1, env := publishKey P "" st.env }) := by
  have h := gsk_found ctx st (lookup_api_of_mem hP) (by simp)
  simpa [choiceL_singleton] using h

/-- The environment variable into which `get_random_service_key` publishes a
provider's credential, following its `if/elif` chain. -/
def envVarOf (service : String) : Option String :=
  if service = "groq" then some "GROQ_API_KEY"
  else if service = "sambanova" then some "SAMBANOVA_API_KEY"
  else if service = "cerebras" then some "CEREBRAS_API_KEY"
  else if service = "googleaistudio" then some "GOOGLE_API_KEY"
  else none

theorem setEnv_same (n v : String) (e : EnvMap) : setEnv n v e n = some v := by
  simp [setEnv]

theorem setEnv_other {n m : String} (v : String) (e : EnvMap) (h : m ≠ n) :
    setEnv n v e m = e m := by
  simp [setEnv, h]

/-! ## C4: provider-scoped credential selection -/

/-- **C4.** For a provider present in the registry with a non-empty
credential list, `get_random_service_key(P)` returns `(P, k)` with `k` drawn
from `P`'s list; for a provider absent from the registry it fails with the
unknown-service `ValueError`; for a provider with an empty list it fails
with the no-keys `ValueError`; with registry `{"groq": ["k1"]}` every call
returns `("groq", "k1")`; and `get_random_key_for_service` behaves
identically. -/
theorem get_random_service_key_spec :
    (∀ (registry : List (String × List String)) (P : String)
        (keys : List String) (ctx : Ctx) (st : PState),
      lookup registry P = some keys → keys ≠ [] →
      ∃ k st1, get_random_service_key registry P ctx st = Except.ok ((P, k), st1) ∧
        k ∈ keys) ∧
    (∀ (registry : List (String × List String)) (P : String) (ctx : Ctx) (st : PState),
      lookup registry P = none →
      get_random_service_key registry P ctx st =
        Except.error (msgUnknownService registry P)) ∧
    (∀ (registry : List (String × List String)) (P : String) (ctx : Ctx) (st : PState),
      lookup registry P = some [] →
      get_random_service_key registry P ctx st = Except.error (msgNoKeys P)) ∧
    (∀ (ctx : Ctx) (st : PState), ∃ st1,
      get_random_service_key [("groq", ["k1"])] "groq" ctx st =
        Except.ok (("groq", "k1"), st1)) ∧
    (∀ (registry : List (String × List String)) (P : String) (ctx : Ctx) (st : PState),
      get_random_key_for_service registry P ctx st =
        get_random_service_key registry P ctx st) := by
  refine ⟨?_, ?_, ?_, ?_, ?_⟩
  · intro registry P keys ctx st h hne
    exact ⟨choiceL "" (ctx.rng st.rngIdx) keys, _, gsk_found ctx st h hne,
      choiceL_mem _ _ _ hne⟩
  · intro registry P ctx st h
    unfold get_random_service_key
    rw [h]
  · intro registry P ctx st h
    unfold get_random_service_key
    rw [h]
    simp
  · intro ctx st
    have h : lookup [("groq", ["k1"])] "groq" = some ["k1"] := rfl
    have h2 := gsk_found ctx st h (by simp)
    rw [choiceL_singleton] at h2
    exact ⟨_, h2⟩
  · intro registry P ctx st
    rfl

/-- Witness for C4 at concrete inputs. -/
theorem get_random_service_key_spec_witness :
    (∃ k st1, get_random_service_key [("groq", ["k1"])] "groq" ctx0 st0 =
        Except.ok (("groq", k), st1) ∧ k ∈ ["k1"]) ∧
    (get_random_service_key [("groq", ["k1"])] "cerebras" ctx0 st0 =
        Except.error (msgUnknownService [("groq", ["k1"])] "cerebras")) ∧
    (get_random_service_key [("groq", [])] "groq" ctx0 st0 =
        Except.error (msgNoKeys "groq")) :=
  ⟨get_random_service_key_spec.1 [("groq", ["k1"])] "groq" ["k1"] ctx0 st0 rfl
      (by simp),
   get_random_service_key_spec.2.1 [("groq", ["k1"])] "cerebras" ctx0 st0 rfl,
   get_random_service_key_spec.2.2.1 [("groq", [])] "groq" ctx0 st0 rfl⟩

/-! ## C5: zero-argument credential selection -/

/-- **C5.** The zero-argument selector returns a pair of the flattened
`(provider, credential)` set — so the chosen credential belongs to the
chosen provider's registry list, and a provider with an empty list is never
chosen; every pair of the flattened set is a possible outcome; and the call
fails with the no-credentials `ValueError` exactly when the flattened set is
empty. -/
theorem get_random_service_key0_spec :
    (∀ (registry : List (String × List String)) (ctx : Ctx) (st : PState)
        (pair : String × String) (st1 : PState),
      get_random_service_key0 registry ctx st = Except.ok (pair, st1) →
      pair ∈ allPairs registry ∧
        ∃ ks, (pair.1, ks) ∈ registry ∧ pair.2 ∈ ks) ∧
    (∀ (registry : List (String × List String)) (pair : String × String),
      pair ∈ allPairs registry → ∀ st : PState, ∃ ctx st1,
        get_random_service_key0 registry ctx st = Except.ok (pair, st1)) ∧
    (∀ (registry : List (String × List String)) (ctx : Ctx) (st : PState),
      (allPairs registry = [] →
        get_random_service_key0 registry ctx st =
          Except.error "No API keys loaded.") ∧
      (allPairs registry ≠ [] →
        ∃ pair st1, get_random_service_key0 registry ctx st =
          Except.ok (pair, st1))) := by
  refine ⟨?_, ?_, ?_⟩
  · intro registry ctx st pair st1 h
    simp only [get_random_service_key0] at h
    rcases hne : (allPairs registry).isEmpty with hF | hT
    · rw [hne] at h
      simp only [Bool.false_eq_true, if_false, Except.ok.injEq, Prod.mk.injEq] at h
      have hmem : pair ∈ allPairs registry := by
        rw [← h.1]
        exact choiceL_mem _ _ _ (by simpa [List.isEmpty_iff] using hne)
      refine ⟨hmem, ?_⟩
      rcases List.mem_flatMap.mp hmem with ⟨p, hp, hin⟩
      rcases List.mem_map.mp hin with ⟨k, hk, heq⟩
      refine ⟨p.2, ?_, ?_⟩
      · rw [← heq]
        simpa using hp
      · rw [← heq]
        exact hk
    · rw [hne] at h
      simp at h
  · intro registry pair hmem st
    rcases List.mem_iff_getElem.mp hmem with ⟨i, hi, hget⟩
    have hch : choiceL ("", "") i (allPairs registry) = pair := by
      unfold choiceL
      rw [Nat.mod_eq_of_lt hi, List.getD_eq_getElem _ _ hi, hget]
    have hne : (allPairs registry).isEmpty = false := by
      rw [List.isEmpty_eq_false]
      exact List.ne_nil_of_mem hmem
    refine ⟨⟨fun _ _ _ => Except.ok "", fun _ => i, ""⟩, ?_⟩
    simp only [get_random_service_key0]
    rw [hne]
    simp only [Bool.false_eq_true, if_false, hch]
    exact ⟨_, rfl⟩
  · intro registry ctx st
    constructor
    · intro h
      simp only [get_random_service_key0]
      rw [h]
      rfl
    · intro h
      simp only [get_random_service_key0]
      have hne : (allPairs registry).isEmpty = false := by
        simpa [List.isEmpty_iff] using h
      rw [hne]
      simp only [Bool.false_eq_true, if_false]
      exact ⟨_, _, rfl⟩

/-- Witness for C5 at concrete inputs. -/
theorem get_random_service_key0_spec_witness :
    (("sambanova", "kB") ∈ allPairs [("groq", []), ("sambanova", ["kB"])] ∧
      ∃ ctx st1,
        get_random_service_key0 [("groq", []), ("sambanova", ["kB"])] ctx st0 =
          Except.ok (("sambanova", "kB"), st1)) ∧
    (get_random_service_key0 [("groq", []), ("empty", [])] ctx0 st0 =
      Except.error "No API keys loaded.") :=
  ⟨⟨by decide,
    get_random_service_key0_spec.2.1 [("groq", []), ("sambanova", ["kB"])]
      ("sambanova", "kB") (by decide) st0⟩,
   (get_random_service_key0_spec.2.2 [("groq", []), ("empty", [])] ctx0 st0).1
     (by decide)⟩

/-! ## C10: environment frame effect of credential publication -/

/-- **C10.** For every provider of the shipped registry,
`get_random_service_key(P)` succeeds and mutates exactly the environment
variable associated with `P`, setting it to the chosen credential and
leaving every other environment entry (in particular the other providers'
credential variables) unchanged; the cache and call counter are also
untouched. -/
theorem get_random_service_key_env_frame :
    ∀ P, P ∈ api_keys.map Prod.fst →
    ∀ (ctx : Ctx) (st : PState), ∃ k st1,
      get_random_service_key api_keys P ctx st = Except.ok ((P, k), st1) ∧
      ∃ v, envVarOf P = some v ∧
        st1.env v = some k ∧
        (∀ n, n ≠ v → st1.env n = st.env n) ∧
        st1.humanList = st.humanList ∧ st1.gwCalls = st.gwCalls := by
  intro P hP ctx st
  refine ⟨"", _, gsk_api hP ctx st, ?_⟩
  simp only [api_keys, List.map_cons, List.map_nil, List.mem_cons,
    List.not_mem_nil, or_false] at hP
  rcases hP with h | h | h | h <;> subst h
  · exact ⟨"GROQ_API_KEY", rfl, by
      constructor
      · show publishKey "groq" "" st.env "GROQ_API_KEY" = some ""
        simp [publishKey, setEnv]
      · refine ⟨?_, rfl, rfl⟩
        intro n hn
        show publishKey "groq" "" st.env n = st.env n
        simp [publishKey, setEnv, hn]⟩
  · exact ⟨"SAMBANOVA_API_KEY", rfl, by
      constructor
      · show publishKey "sambanova" "" st.env "SAMBANOVA_API_KEY" = some ""
        simp [publishKey, setEnv]
      · refine ⟨?_, rfl, rfl⟩
        intro n hn
        show publishKey "sambanova" "" st.env n = st.env n
        simp [publishKey, setEnv, hn]⟩
  · exact ⟨"CEREBRAS_API_KEY", rfl, by
      constructor
      · show publishKey "cerebras" "" st.env "CEREBRAS_API_KEY" = some ""
        simp [publishKey, setEnv]
      · refine ⟨?_, rfl, rfl⟩
        intro n hn
        show publishKey "cerebras" "" st.env n = st.env n
        simp [publishKey, setEnv, hn]⟩
  · exact ⟨"GOOGLE_API_KEY", rfl, by
      constructor
      · show publishKey "googleaistudio" "" st.env "GOOGLE_API_KEY" = some ""
        simp [publishKey, setEnv]
      · refine ⟨?_, rfl, rfl⟩
        intro n hn
        show publishKey "googleaistudio" "" st.env n = st.env n
        simp [publishKey, setEnv, hn]⟩

/-- Witness for C10 at a concrete provider and state. -/
theorem get_random_service_key_env_frame_witness :
    ∃ k st1,
      get_random_service_key api_keys "cerebras" ctx0 st0 =
        Except.ok (("cerebras", k), st1) ∧
      ∃ v, envVarOf "cerebras" = some v ∧
        st1.env v = some k ∧
        (∀ n, n ≠ v → st1.env n = st0.env n) ∧
        st1.humanList = st0.humanList ∧ st1.gwCalls = st0.gwCalls :=
  get_random_service_key_env_frame "cerebras" (by decide) ctx0 st0

/-! ## Gateway dispatch lemmas -/

/-- Dispatch through the gateway for any shipped provider when the
underlying chat call succeeds: the escaped prompts are handed to the call
and its content is returned, with one call counted. -/
theorem gw_call_ok {P : String} (hP : P ∈ api_keys.map Prod.fst)
    (sys hum mod : String) (ctx : Ctx) (st : PState) {c : String}
    (hOr : ctx.oracle st.gwCalls (escapeErr sys) (escapeErr hum) = Except.ok c) :
    obtener_respuesta api_keys P sys hum mod ctx st =
      Except.ok (c, ⟨publishKey P "" st.env, st.humanList, st.gwCalls + 1,
        st.rngIdx + 1⟩) := by
  have hg := gsk_api hP ctx st
  simp only [api_keys, List.map_cons, List.map_nil, List.mem_cons,
    List.not_mem_nil, or_false] at hP
  rcases hP with h | h | h | h <;> subst h <;>
  · unfold obtener_respuesta
    rw [hg]
    simp [obtener_respuesta_groq, obtener_respuesta_sambanova,
      obtener_respuesta_cerebras, obtener_respuesta_google, hOr,
      publishKey, setEnv, Except.map]

/-- Failing chat call through the `groq` branch: wrapped into an
`"[ERROR]: "` string result. -/
theorem gw_groq_err (sys hum mod : String) (ctx : Ctx) (st : PState) {e : String}
    (hOr : ctx.oracle st.gwCalls (escapeErr sys) (escapeErr hum) = Except.error e) :
    obtener_respuesta api_keys "groq" sys hum mod ctx st =
      Except.ok ("[ERROR]: " ++ e, ⟨publishKey "groq" "" st.env, st.humanList,
        st.gwCalls + 1, st.rngIdx + 1⟩) := by
  have hg := @gsk_api "groq" (by decide) ctx st
  unfold obtener_respuesta
  rw [hg]
  simp [obtener_respuesta_groq, hOr, publishKey, setEnv]

/-! ## C2: gateway failure behaviour -/

/-- **C2 (amended).** Only the `groq` branch of the gateway converts a
failing underlying chat call into an `"[ERROR]: ..."` string result; for
`sambanova`, `cerebras` and `googleaistudio` the exception propagates to the
caller instead of being returned as a marked string. -/
theorem obtener_respuesta_error_handling :
    (∀ (sys hum mod : String) (ctx : Ctx) (st : PState) (e : String),
      ctx.oracle st.gwCalls (escapeErr sys) (escapeErr hum) = Except.error e →
      ∃ st1, obtener_respuesta api_keys "groq" sys hum mod ctx st =
        Except.ok ("[ERROR]: " ++ e, st1)) ∧
    (∀ (sys hum mod : String) (ctx : Ctx) (st : PState) (e : String),
      ctx.oracle st.gwCalls (escapeErr sys) (escapeErr hum) = Except.error e →
      obtener_respuesta api_keys "sambanova" sys hum mod ctx st =
        Except.error e) ∧
    (∀ (sys hum mod : String) (ctx : Ctx) (st : PState) (e : String),
      ctx.oracle st.gwCalls (escapeErr sys) (escapeErr hum) = Except.error e →
      obtener_respuesta api_keys "cerebras" sys hum mod ctx st =
        Except.error e) ∧
    (∀ (sys hum mod : String) (ctx : Ctx) (st : PState) (e : String),
      ctx.oracle st.gwCalls (escapeErr sys) (escapeErr hum) = Except.error e →
      obtener_respuesta api_keys "googleaistudio" sys hum mod ctx st =
        Except.error e) := by
  refine ⟨?_, ?_, ?_, ?_⟩
  · intro sys hum mod ctx st e hOr
    exact ⟨_, gw_groq_err sys hum mod ctx st hOr⟩
  · intro sys hum mod ctx st e hOr
    have hg := @gsk_api "sambanova" (by decide) ctx st
    unfold obtener_respuesta
    rw [hg]
    simp [obtener_respuesta_sambanova, hOr, Except.map]
  · intro sys hum mod ctx st e hOr
    have hg := @gsk_api "cerebras" (by decide) ctx st
    unfold obtener_respuesta
    rw [hg]
    simp [obtener_respuesta_cerebras, hOr, Except.map]
  · intro sys hum mod ctx st e hOr
    have hg := @gsk_api "googleaistudio" (by decide) ctx st
    unfold obtener_respuesta
    rw [hg]
    simp [obtener_respuesta_google, hOr, Except.map]

/-- A context whose chat calls always raise an exception `"boom"`. -/
def ctxFail : Ctx := ⟨fun _ _ _ => Except.error "boom", fun _ => 0, "T"⟩

/-- Counterexample for C2 as stated: for the supported provider
`sambanova`, a failing underlying call makes the gateway raise (propagate
the exception) instead of returning an `"[ERROR]: ..."` string. -/
theorem obtener_respuesta_error_handling_cex :
    (obtener_respuesta api_keys "sambanova" "s" "h" "m" ctxFail st0).map Prod.fst =
      Except.error "boom" ∧
    (Except.error "boom" : Except String String) ≠ Except.ok "[ERROR]: boom" := by
  exact ⟨rfl, by simp⟩

/-- Witness for C2 (amended) at concrete inputs. -/
theorem obtener_respuesta_error_handling_witness :
    (∃ st1, obtener_respuesta api_keys "groq" "s" "h" "m" ctxFail st0 =
        Except.ok ("[ERROR]: " ++ "boom", st1)) ∧
    obtener_respuesta api_keys "cerebras" "s" "h" "m" ctxFail st0 =
      Except.error "boom" :=
  ⟨obtener_respuesta_error_handling.1 "s" "h" "m" ctxFail st0 "boom" rfl,
   obtener_respuesta_error_handling.2.2.1 "s" "h" "m" ctxFail st0 "boom" rfl⟩

/-! ## C3: unsupported provider names -/

/-- **C3 (amended).**  A provider name outside the registry makes
`obtener_respuesta` raise the unknown-service `ValueError` from credential
selection before the dispatch is reached; the literal
`"Servicio no soportado"` is returned only for a provider that is present in
the registry but is none of the four dispatch names — unreachable with the
shipped registry. -/
theorem obtener_respuesta_unsupported_provider :
    (∀ P, lookup api_keys P = none →
      ∀ (sys hum mod : String) (ctx : Ctx) (st : PState),
      obtener_respuesta api_keys P sys hum mod ctx st =
        Except.error (msgUnknownService api_keys P)) ∧
    (∀ (sys hum mod : String) (ctx : Ctx) (st : PState), ∃ st1,
      obtener_respuesta [("localllm", ["k"])] "localllm" sys hum mod ctx st =
        Except.ok ("Servicio no soportado", st1)) := by
  constructor
  · intro P hP sys hum mod ctx st
    unfold obtener_respuesta get_random_service_key
    rw [hP]
  · intro sys hum mod ctx st
    have h : lookup [("localllm", ["k"])] "localllm" = some ["k"] := rfl
    have hg := gsk_found ctx st h (by simp)
    unfold obtener_respuesta
    rw [hg]
    simp

/-- Counterexample for C3 as stated: for the unsupported provider name
`"openai"`, `obtener_respuesta` raises the unknown-service `ValueError`; it
does not return the `"Servicio no soportado"` string. -/
theorem obtener_respuesta_unsupported_provider_cex :
    (obtener_respuesta api_keys "openai" "s" "h" "m" ctx0 st0).map Prod.fst =
      Except.error (msgUnknownService api_keys "openai") ∧
    (obtener_respuesta api_keys "openai" "s" "h" "m" ctx0 st0).map Prod.fst ≠
      Except.ok "Servicio no soportado" := by
  have h1 : (obtener_respuesta api_keys "openai" "s" "h" "m" ctx0 st0).map Prod.fst =
      Except.error (msgUnknownService api_keys "openai") := rfl
  exact ⟨h1, by rw [h1]; simp⟩

/-- Witness for C3 (amended) at concrete inputs. -/
theorem obtener_respuesta_unsupported_provider_witness :
    obtener_respuesta api_keys "openai" "s" "h" "m" ctx0 st0 =
      Except.error (msgUnknownService api_keys "openai") ∧
    ∃ st1, obtener_respuesta [("localllm", ["k"])] "localllm" "s" "h" "m" ctx0 st0 =
      Except.ok ("Servicio no soportado", st1) :=
  ⟨obtener_respuesta_unsupported_provider.1 "openai" rfl "s" "h" "m" ctx0 st0,
   obtener_respuesta_unsupported_provider.2 "s" "h" "m" ctx0 st0⟩

/-! ## C6: `{error}` escaping inside the gateway -/

/-- **C6.** On every call and for every shipped provider, the gateway hands
the underlying chat call the prompts with every literal `{error}` escaped to
`{{error}}` (the call outcome at the escaped prompts is what the gateway
returns); `escapeErr` rewrites every occurrence and leaves strings without
the pattern unchanged. -/
theorem obtener_respuesta_escapes_error_braces :
    (∀ P, P ∈ api_keys.map Prod.fst →
      ∀ (sys hum mod : String) (ctx : Ctx) (st : PState) (c : String),
        ctx.oracle st.gwCalls (escapeErr sys) (escapeErr hum) = Except.ok c →
        ∃ st1, obtener_respuesta api_keys P sys hum mod ctx st =
          Except.ok (c, st1)) ∧
    escapeErr "x\x7berror\x7dy\x7berror\x7dz" =
      "x\x7b\x7berror\x7d\x7dy\x7b\x7berror\x7d\x7dz" ∧
    (∀ s : String, hasSub errPat s.data = false → escapeErr s = s) := by
  refine ⟨?_, by simp +decide [escapeErr, errPat, errRep, replaceSub], ?_⟩
  · intro P hP sys hum mod ctx st c hOr
    exact ⟨_, gw_call_ok hP sys hum mod ctx st hOr⟩
  · intro s h
    unfold escapeErr
    rw [h]
    simp

/-- Witness for C6 at concrete inputs. -/
theorem obtener_respuesta_escapes_error_braces_witness :
    (∃ st1, obtener_respuesta api_keys "groq" "a" "b" "m" ctx0 st0 =
      Except.ok ("R", st1)) ∧
    escapeErr "plain" = "plain" :=
  ⟨obtener_respuesta_escapes_error_braces.1 "groq" (by decide) "a" "b" "m"
      ctx0 st0 "R" rfl,
   obtener_respuesta_escapes_error_braces.2.2 "plain" (by decide)⟩

/-! ## C8: human-context variations are memoized -/

/-- With a populated cache, `human_variations` returns the cache and leaves
the state untouched (in particular it makes no gateway call). -/
theorem hv_cached (ctx : Ctx) (st : PState) (h : st.humanList ≠ []) :
    human_variations ctx st = Except.ok (st.humanList, st) := by
  unfold human_variations
  simp [List.isEmpty_iff, h]

/-- A gateway call routed to `groq` always returns a string (the `groq`
branch catches every exception), counting one chat call. -/
theorem gw_groq_total (sys hum mod : String) (ctx : Ctx) (st : PState) :
    ∃ s, obtener_respuesta api_keys "groq" sys hum mod ctx st =
      Except.ok (s, ⟨publishKey "groq" "" st.env, st.humanList, st.gwCalls + 1,
        st.rngIdx + 1⟩) := by
  rcases hc : ctx.oracle st.gwCalls (escapeErr sys) (escapeErr hum) with e | c
  · exact ⟨_, gw_groq_err sys hum mod ctx st hc⟩
  · exact ⟨c, gw_call_ok (by decide) sys hum mod ctx st hc⟩

/-- The five-fold comprehension of `human_variations` always succeeds,
produces one string per iteration and counts exactly one gateway call per
iteration, preserving the cache. -/
theorem hvCalls_spec (ctx : Ctx) (cstr : String) :
    ∀ (n : Nat) (st : PState), ∃ l env1,
      hvCalls ctx cstr n st =
        Except.ok (l, ⟨env1, st.humanList, st.gwCalls + n, st.rngIdx + n⟩) ∧
      l.length = n := by
  intro n
  induction n with
  | zero => intro st; exact ⟨[], st.env, rfl, rfl⟩
  | succ n ih =>
    intro st
    obtain ⟨s, hs⟩ := gw_groq_total "" cstr
      (((lookup models_dict "groq").getD []).getD 0 "") ctx st
    obtain ⟨l, env1, hl, hlen⟩ := ih
      ⟨publishKey "groq" "" st.env, st.humanList, st.gwCalls + 1, st.rngIdx + 1⟩
    refine ⟨s :: l, env1, ?_, by simpa using hlen⟩
    simp only [hvCalls, hs, hl]
    have e1 : st.gwCalls + 1 + n = st.gwCalls + (n + 1) := by omega
    have e2 : st.rngIdx + 1 + n = st.rngIdx + (n + 1) := by omega
    rw [e1, e2]

/-- **C8.** Starting from an empty module-level cache, `human_variations()`
returns a list of exactly 5 paraphrase strings obtained through exactly 5
gateway calls, stores that list in the cache, and each subsequent invocation
returns the identical list with the state unchanged — no further gateway
calls. -/
theorem human_variations_memoized :
    ∀ (ctx : Ctx) (st : PState), st.humanList = [] →
      ∃ l st1, human_variations ctx st = Except.ok (l, st1) ∧
        l.length = 5 ∧ st1.gwCalls = st.gwCalls + 5 ∧ st1.humanList = l ∧
        human_variations ctx st1 = Except.ok (l, st1) := by
  intro ctx st h
  obtain ⟨l, env1, hl, hlen⟩ := hvCalls_spec ctx (humanHourContext ctx.clock) 5 st
  refine ⟨l, ⟨env1, l, st.gwCalls + 5, st.rngIdx + 5⟩, ?_, hlen, rfl, rfl, ?_⟩
  · unfold human_variations
    rw [h] at hl ⊢
    simp [hl]
  · have hne : l ≠ [] := by
      intro hnil
      rw [hnil] at hlen
      simp at hlen
    exact hv_cached ctx _ hne

/-- Witness for C8 at a concrete context and cold-cache state. -/
theorem human_variations_memoized_witness :
    ∃ l st1, human_variations ctx0 st0 = Except.ok (l, st1) ∧
      l.length = 5 ∧ st1.gwCalls = st0.gwCalls + 5 ∧ st1.humanList = l ∧
      human_variations ctx0 st1 = Except.ok (l, st1) :=
  human_variations_memoized ctx0 st0 rfl

/-! ## C7: prompt-relay code-fence extraction -/

/-- The backtick character. -/
def btChar : Char := Char.ofNat 96

theorem fenceL_eq : fenceL = [btChar, btChar, btChar] := by decide

/-- A string without an occurrence of the separator is not split. -/
theorem split_no_occ (pat : List Char) :
    ∀ s, hasSub pat s = false → splitOnSub pat s = [s] := by
  intro s
  induction s with
  | nil => intro _; simp [splitOnSub]
  | cons c rest ih =>
    intro h
    simp only [hasSub, Bool.or_eq_false_iff] at h
    simp only [splitOnSub, h.1, Bool.false_eq_true, if_false, ih h.2]

/-- The fence pattern is not a prefix of `c :: a' ++ fence ++ rest` when it
is not a prefix of `c :: a'` and `c :: a'` does not end in a backtick. -/
theorem bbb_not_prefix {c : Char} {a' : List Char} (rest : List Char)
    (h1 : List.isPrefixOf [btChar, btChar, btChar] (c :: a') = false)
    (hl : (c :: a').getLast? ≠ some btChar) :
    List.isPrefixOf [btChar, btChar, btChar]
      (c :: (a' ++ btChar :: btChar :: btChar :: rest)) = false := by
  match a' with
  | [] =>
    have hc : ¬(c = btChar) := by simpa using hl
    have hb : (btChar == c) = false := beq_eq_false_iff_ne.mpr (Ne.symm hc)
    simp [List.isPrefixOf, hb]
  | [d] =>
    have hd : ¬(d = btChar) := by simpa using hl
    have hb : (btChar == d) = false := beq_eq_false_iff_ne.mpr (Ne.symm hd)
    simp [List.isPrefixOf, hb]
  | d :: e :: a'' =>
    simp only [List.isPrefixOf, Bool.and_true] at h1 ⊢
    exact h1

/-- Splitting on the fence after a fence-free chunk that does not end in a
backtick peels off exactly that chunk. -/
theorem split_bbb_append :
    ∀ (a t : List Char), hasSub [btChar, btChar, btChar] a = false →
      a.getLast? ≠ some btChar →
      splitOnSub [btChar, btChar, btChar] (a ++ btChar :: btChar :: btChar :: t) =
        a :: splitOnSub [btChar, btChar, btChar] t := by
  intro a
  induction a with
  | nil =>
    intro t _ _
    simp only [List.nil_append]
    have hc : List.isPrefixOf [btChar, btChar, btChar]
        (btChar :: btChar :: btChar :: t) = true := by
      simp [List.isPrefixOf]
    simp only [splitOnSub, hc, if_true]
    simp
  | cons c a' ih =>
    intro t h hl
    simp only [hasSub, Bool.or_eq_false_iff] at h
    have hnp := bbb_not_prefix t h.1 hl
    have hl' : a'.getLast? ≠ some btChar := by
      cases a' with
      | nil => simp
      | cons d a'' =>
        rw [List.getLast?_cons_cons] at hl
        exact hl
    simp only [List.cons_append]
    simp only [splitOnSub, hnp, Bool.false_eq_true, if_false]
    rw [ih t h.2 hl']

/-- `split_bbb_append` phrased on `fenceL`. -/
theorem splitOnSub_fence_append (a t : List Char)
    (ha : hasSub fenceL a = false) (hl : a.getLast? ≠ some btChar) :
    splitOnSub fenceL (a ++ fenceL ++ t) = a :: splitOnSub fenceL t := by
  rw [fenceL_eq] at ha ⊢
  simpa [List.append_assoc] using split_bbb_append a t ha hl

/-- Plumbing: with a constant-response oracle, the relay reduces to the
fence split of the response. -/
theorem ptle_unfold (conclusion resp : String) (ctx : Ctx) (st : PState)
    (hOracle : ∀ n s h, ctx.oracle n s h = Except.ok resp) :
    ∃ st1, prompt_to_llm_engineer conclusion ctx st =
      (match splitOnSub fenceL resp.data with
       | _ :: x :: _ => Except.ok (String.mk x, st1)
       | _ => Except.error idxErrMsg) := by
  have hmem : choiceL "" (ctx.rng st.rngIdx) (models_dict.map Prod.fst) ∈
      api_keys.map Prod.fst := by
    have he : models_dict.map Prod.fst = api_keys.map Prod.fst := by decide
    rw [← he]
    exact choiceL_mem _ _ _ (by decide)
  have hgw : ∀ (sys hum mod : String) (st2 : PState),
      obtener_respuesta api_keys
          (choiceL "" (ctx.rng st.rngIdx) (models_dict.map Prod.fst))
          sys hum mod ctx st2 =
        Except.ok (resp,
          ⟨publishKey (choiceL "" (ctx.rng st.rngIdx) (models_dict.map Prod.fst))
              "" st2.env, st2.humanList, st2.gwCalls + 1, st2.rngIdx + 1⟩) :=
    fun sys hum mod st2 => gw_call_ok hmem sys hum mod ctx st2 (hOracle _ _ _)
  simp only [prompt_to_llm_engineer, elegir_modelo_aleatorio, gsk_api hmem, hgw]
  exact ⟨_, rfl⟩

/-- **C7.** For every meta-verdict input, when the gateway response contains
no triple-backtick fence the Prompt Relay fails with the (unguarded)
`IndexError`; when the response decomposes around two fences, the relay
returns the content between the first and the second fence. -/
theorem prompt_to_llm_engineer_spec :
    ∀ (conclusion resp : String) (ctx : Ctx) (st : PState),
      (∀ n s h, ctx.oracle n s h = Except.ok resp) →
      (hasSub fenceL resp.data = false →
        prompt_to_llm_engineer conclusion ctx st = Except.error idxErrMsg) ∧
      (∀ a b c2 : List Char, hasSub fenceL a = false → hasSub fenceL b = false →
        a.getLast? ≠ some btChar → b.getLast? ≠ some btChar →
        resp.data = a ++ fenceL ++ b ++ fenceL ++ c2 →
        ∃ st1, prompt_to_llm_engineer conclusion ctx st =
          Except.ok (String.mk b, st1)) := by
  intro conclusion resp ctx st hOracle
  obtain ⟨st1, hu⟩ := ptle_unfold conclusion resp ctx st hOracle
  constructor
  · intro hnf
    rw [hu, split_no_occ _ _ hnf]
  · intro a b c2 ha hb hla hlb hdecomp
    refine ⟨st1, ?_⟩
    have e : a ++ fenceL ++ b ++ fenceL ++ c2 =
        a ++ fenceL ++ (b ++ fenceL ++ c2) := by
      simp [List.append_assoc]
    rw [hu, hdecomp, e, splitOnSub_fence_append a _ ha hla,
      splitOnSub_fence_append b c2 hb hlb]

/-- A context whose chat calls answer with a response holding no code
fence. -/
def ctxPlain : Ctx := ⟨fun _ _ _ => Except.ok "no fence here", fun _ => 0, "T"⟩

/-- A context whose chat calls answer with a response holding a fenced
block. -/
def ctxFenced : Ctx := ⟨fun _ _ _ => Except.ok "ab```CODE```cd", fun _ => 0, "T"⟩

/-- Witness for C7 at concrete responses. -/
theorem prompt_to_llm_engineer_spec_witness :
    prompt_to_llm_engineer "x" ctxPlain st0 = Except.error idxErrMsg ∧
    ∃ st1, prompt_to_llm_engineer "x" ctxFenced st0 =
      Except.ok (String.mk "CODE".data, st1) :=
  ⟨(prompt_to_llm_engineer_spec "x" "no fence here" ctxPlain st0
      (fun _ _ _ => rfl)).1 (by decide),
   (prompt_to_llm_engineer_spec "x" "ab```CODE```cd" ctxFenced st0
      (fun _ _ _ => rfl)).2 "ab".data "CODE".data "cd".data
      (by decide) (by decide) (by decide) (by decide) (by decide)⟩

/-! ## C9: counting `--- IDEA` markers in the judging block -/

theorem isPrefixOf_mem {pat s : List Char} (h : pat.isPrefixOf s = true) :
    ∀ c ∈ pat, c ∈ s :=
  fun _ hc => (List.isPrefixOf_iff_prefix.mp h).subset hc

/-- A pattern avoiding `x` is a prefix of `a ++ x :: b` iff it is a prefix
of `a`. -/
theorem isPrefixOf_append_sep {x : Char} :
    ∀ (pat : List Char), x ∉ pat →
      ∀ a b, pat.isPrefixOf (a ++ x :: b) = pat.isPrefixOf a := by
  intro pat
  induction pat with
  | nil => intro _ a b; simp [List.isPrefixOf]
  | cons p ps ih =>
    intro hx a b
    have hxp : ¬(p = x) := fun he => hx (by rw [he]; exact List.mem_cons_self _ _)
    have hxs : x ∉ ps := fun hm => hx (List.mem_cons_of_mem _ hm)
    cases a with
    | nil =>
      have hb : (p == x) = false := beq_eq_false_iff_ne.mpr hxp
      simp [List.isPrefixOf, hb]
    | cons y a' =>
      simp only [List.cons_append, List.isPrefixOf, List.append_eq, ih hxs a' b]

/-- Counting occurrences across a separator character that the pattern
avoids. -/
theorem countSub_sepChar (pat : List Char) (hne : pat ≠ []) {x : Char}
    (hx : x ∉ pat) :
    ∀ a b, countSub pat (a ++ x :: b) = countSub pat a + countSub pat b := by
  intro a
  induction a with
  | nil =>
    intro b
    have h0 : pat.isPrefixOf ([] ++ x :: b) = pat.isPrefixOf [] :=
      isPrefixOf_append_sep pat hx [] b
    have h1 : pat.isPrefixOf (x :: b) = false := by
      rw [List.nil_append] at h0
      rw [h0]
      cases pat with
      | nil => exact absurd rfl hne
      | cons p ps => rfl
    simp [countSub, h1]
  | cons c a' ih =>
    intro b
    have hpre : pat.isPrefixOf ((c :: a') ++ x :: b) = pat.isPrefixOf (c :: a') :=
      isPrefixOf_append_sep pat hx (c :: a') b
    rw [List.cons_append] at hpre
    simp only [List.cons_append, countSub, List.append_eq, hpre, ih b]
    omega

theorem countSub_cons_not_mem (pat : List Char) (hne : pat ≠ []) {x : Char}
    (hx : x ∉ pat) (b : List Char) :
    countSub pat (x :: b) = countSub pat b := by
  have h := countSub_sepChar pat hne hx [] b
  simpa [countSub] using h

/-- Occurrence counting skips a leading block of characters the pattern
avoids. -/
theorem countSub_append_not_mem (pat : List Char) (hne : pat ≠ []) :
    ∀ m, (∀ c ∈ m, c ∉ pat) → ∀ b, countSub pat (m ++ b) = countSub pat b := by
  intro m
  induction m with
  | nil => intro _ b; rfl
  | cons x m' ih =>
    intro hm b
    rw [List.cons_append, countSub_cons_not_mem pat hne (hm x (List.mem_cons_self _ _)) _]
    exact ih (fun c hc => hm c (List.mem_cons_of_mem _ hc)) b

/-- Counting across a non-empty in-between block whose characters the
pattern avoids. -/
theorem countSub_sepList (pat : List Char) (hne : pat ≠ []) :
    ∀ m, m ≠ [] → (∀ c ∈ m, c ∉ pat) →
      ∀ a b, countSub pat (a ++ (m ++ b)) = countSub pat a + countSub pat b := by
  intro m hm hchars a b
  match m with
  | [] => exact absurd rfl hm
  | x :: m' =>
    rw [List.cons_append, countSub_sepChar pat hne (hchars x (List.mem_cons_self _ _)) a _,
      countSub_append_not_mem pat hne m' (fun c hc => hchars c (List.mem_cons_of_mem _ hc)) b]

theorem hasSub_false_countSub {pat s : List Char} (h : hasSub pat s = false) :
    countSub pat s = 0 := by
  induction s with
  | nil => rfl
  | cons c rest ih =>
    simp only [hasSub, Bool.or_eq_false_iff] at h
    simp [countSub, h.1, ih h.2]

theorem digit_mem_digits (d : Nat) (hd : d < 10) :
    Char.ofNat (48 + d) ∈ "0123456789".data := by
  interval_cases d <;> decide

theorem natStr_ne_nil (n : Nat) : natStr n ≠ [] := by
  unfold natStr
  split <;> simp

theorem natStr_mem_digits : ∀ n : Nat, ∀ c ∈ natStr n, c ∈ "0123456789".data := by
  intro n
  induction n using Nat.strong_induction_on with
  | _ n ih =>
    intro c hc
    unfold natStr at hc
    split at hc
    · next hlt =>
      rw [List.mem_singleton] at hc
      rw [hc]
      exact digit_mem_digits n hlt
    · next hge =>
      rcases List.mem_append.mp hc with h1 | h2
      · exact ih (n / 10) (Nat.div_lt_self (by omega) (by omega)) c h1
      · rw [List.mem_singleton] at h2
        rw [h2]
        exact digit_mem_digits (n % 10) (Nat.mod_lt _ (by omega))

theorem digits_not_in_marker : ∀ c ∈ "0123456789".data, c ∉ ideaMarker := by
  decide

theorem strData_append (s t : String) : (s ++ t).data = s.data ++ t.data := rfl

/-- The judging-block chunk for index `i`, decomposed into the pieces used
by the counting argument. -/
theorem judgeChunk_data (i : Nat) (idea : String) (D : List Char) :
    (judgeChunk i idea).data ++ D =
      "--- IDEA ".data ++ (natStr (i + 1) ++
        (" ---".data ++ ('\n' :: (idea.data ++ ('\n' :: ('\n' :: D)))))) := by
  have e1 : " ---\n".data = ' ' :: '-' :: '-' :: '-' :: '\n' :: [] := rfl
  have e2 : ("\n\n" : String).data = '\n' :: '\n' :: [] := rfl
  have e3 : (" ---" : String).data = ' ' :: '-' :: '-' :: '-' :: [] := rfl
  simp [judgeChunk, strData_append, e1, e2, e3, List.append_assoc]

/-- Marker count of the judging block built from index `i` on: one marker
per idea, provided no idea contains the marker. -/
theorem countSub_block :
    ∀ (ideas : List String) (i : Nat),
      (∀ idea ∈ ideas, hasSub ideaMarker idea.data = false) →
      countSub ideaMarker (buildJudgeBlockAux i ideas).data = ideas.length := by
  intro ideas
  induction ideas with
  | nil => intro i _; rfl
  | cons idea rest ih =>
    intro i h
    have hd : (buildJudgeBlockAux i (idea :: rest)).data =
        (judgeChunk i idea).data ++ (buildJudgeBlockAux (i + 1) rest).data := by
      simp [buildJudgeBlockAux, strData_append]
    rw [hd, judgeChunk_data]
    have hne : ideaMarker ≠ [] := by decide
    have hnl : '\n' ∉ ideaMarker := by decide
    rw [countSub_sepList ideaMarker hne (natStr (i + 1)) (natStr_ne_nil _)
      (fun c hc => digits_not_in_marker c (natStr_mem_digits _ c hc))]
    rw [countSub_sepChar ideaMarker hne hnl]
    rw [countSub_sepChar ideaMarker hne hnl]
    rw [countSub_cons_not_mem ideaMarker hne hnl]
    have c1 : countSub ideaMarker "--- IDEA ".data = 1 := by decide
    have c2 : countSub ideaMarker " ---".data = 0 := by decide
    rw [c1, c2, hasSub_false_countSub (h idea (List.mem_cons_self _ _)),
      ih (i + 1) (fun x hx => h x (List.mem_cons_of_mem _ hx))]
    simp [List.length_cons]
    omega

/-- Each numbered header occurs in the block, at its branch position. -/
theorem header_infix :
    ∀ (ideas : List String) (i0 i : Nat), i < ideas.length →
      ("--- IDEA " ++ String.mk (natStr (i0 + i + 1)) ++ " ---\n").data <:+:
        (buildJudgeBlockAux i0 ideas).data := by
  intro ideas
  induction ideas with
  | nil => intro i0 i h; simp at h
  | cons idea rest ih =>
    intro i0 i h
    cases i with
    | zero =>
      refine ⟨[], idea.data ++ (("\n\n" : String).data ++
        (buildJudgeBlockAux (i0 + 1) rest).data), ?_⟩
      simp [buildJudgeBlockAux, judgeChunk, strData_append, List.append_assoc]
    | succ i' =>
      have h' : i' < rest.length := by simpa using h
      have hrec := ih (i0 + 1) i' h'
      have harith : i0 + 1 + i' + 1 = i0 + (i' + 1) + 1 := by omega
      rw [harith] at hrec
      rcases hrec with ⟨u, v, huv⟩
      refine ⟨(judgeChunk i0 idea).data ++ u, v, ?_⟩
      have hd : (buildJudgeBlockAux i0 (idea :: rest)).data =
          (judgeChunk i0 idea).data ++ (buildJudgeBlockAux (i0 + 1) rest).data := by
        simp [buildJudgeBlockAux, strData_append]
      rw [hd, ← huv]
      simp [List.append_assoc]

/-- **C9.** For a list of X final ideas none of which contains the
`--- IDEA` marker, the judging block contains exactly X occurrences of the
marker — so a parser counting `--- IDEA` markers recovers X — and each of
the X headers, numbered 1 through X in branch order, occurs in the block. -/
theorem judge_block_marker_count :
    ∀ ideas : List String,
      (∀ idea ∈ ideas, hasSub ideaMarker idea.data = false) →
      countSub ideaMarker (buildJudgeBlock ideas).data = ideas.length ∧
      ∀ i, i < ideas.length →
        ("--- IDEA " ++ String.mk (natStr (i + 1)) ++ " ---\n").data <:+:
          (buildJudgeBlock ideas).data := by
  intro ideas h
  refine ⟨countSub_block ideas 0 h, ?_⟩
  intro i hi
  have hrec := header_infix ideas 0 i hi
  rwa [Nat.zero_add] at hrec

/-- Witness for C9 at a concrete two-idea list. -/
theorem judge_block_marker_count_witness :
    countSub ideaMarker (buildJudgeBlock ["alpha", "beta"]).data = 2 ∧
    ∀ i, i < (["alpha", "beta"] : List String).length →
      ("--- IDEA " ++ String.mk (natStr (i + 1)) ++ " ---\n").data <:+:
        (buildJudgeBlock ["alpha", "beta"]).data :=
  judge_block_marker_count ["alpha", "beta"] (by decide)

/-! ## C1: the idea search tree -/

/-- Gateway call to a randomly selected provider under a total-success
oracle `f`. -/
theorem gw_call_any (ctx : Ctx) {f : Nat → String → String → String}
    (hOr : ∀ n s h, ctx.oracle n s h = Except.ok (f n s h)) :
    ∀ (r : Nat) (sys hum mod : String) (st : PState),
      obtener_respuesta api_keys (choiceL "" r (models_dict.map Prod.fst))
          sys hum mod ctx st =
        Except.ok (f st.gwCalls (escapeErr sys) (escapeErr hum),
          ⟨publishKey (choiceL "" r (models_dict.map Prod.fst)) "" st.env,
            st.humanList, st.gwCalls + 1, st.rngIdx + 1⟩) := by
  intro r sys hum mod st
  have hmem : choiceL "" r (models_dict.map Prod.fst) ∈ api_keys.map Prod.fst := by
    have he : models_dict.map Prod.fst = api_keys.map Prod.fst := by decide
    rw [← he]
    exact choiceL_mem _ _ _ (by decide)
  exact gw_call_ok hmem sys hum mod ctx st (hOr _ _ _)

/-- The refinement loop makes exactly one gateway call per round and always
succeeds under a total-success oracle, preserving the cache. -/
theorem refineLoop_spec (sys : String) (ctx : Ctx)
    {f : Nat → String → String → String}
    (hOr : ∀ n s h, ctx.oracle n s h = Except.ok (f n s h)) :
    ∀ (Y : Nat) (idea : String) (st : PState), ∃ idea1 st1,
      refineLoop sys ctx Y idea st = Except.ok (idea1, st1) ∧
      st1.gwCalls = st.gwCalls + Y ∧ st1.humanList = st.humanList := by
  intro Y
  induction Y with
  | zero => intro idea st; exact ⟨idea, st, rfl, rfl, rfl⟩
  | succ j ih =>
    intro idea st
    obtain ⟨idea1, st1, h1, h2, h3⟩ := ih
      (f st.gwCalls (escapeErr sys) (escapeErr (refinementPrompt idea)))
      ⟨publishKey (choiceL "" (ctx.rng st.rngIdx) (models_dict.map Prod.fst))
        "" st.env, st.humanList, st.gwCalls + 1, st.rngIdx + 2 + 1⟩
    refine ⟨idea1, st1, ?_, by simp at h2 ⊢; omega, by simpa using h3⟩
    simp only [refineLoop, elegir_modelo_aleatorio, gw_call_any ctx hOr]
    exact h1

/-- The branch loop: with a warm paraphrase cache and a total-success
oracle, each branch makes `Y + 1` gateway calls, and the branch results are
collected in order. -/
theorem branchLoop_spec (sys : String) (Y : Nat) (ctx : Ctx)
    {f : Nat → String → String → String}
    (hOr : ∀ n s h, ctx.oracle n s h = Except.ok (f n s h)) :
    ∀ (X : Nat) (st : PState), st.humanList ≠ [] →
      ∃ ideas st1, branchLoop sys Y ctx X st = Except.ok (ideas, st1) ∧
        ideas.length = X ∧ st1.gwCalls = st.gwCalls + X * (Y + 1) ∧
        st1.humanList = st.humanList := by
  intro X
  induction X with
  | zero =>
    intro st _
    exact ⟨[], st, rfl, rfl, by simp, rfl⟩
  | succ i ih =>
    intro st hhl
    obtain ⟨ideaF, stR, hR, hRg, hRh⟩ := refineLoop_spec sys ctx hOr Y
      (f st.gwCalls (escapeErr sys)
        (escapeErr (choiceL "" (ctx.rng (st.rngIdx + 2)) st.humanList)))
      ⟨publishKey (choiceL "" (ctx.rng st.rngIdx) (models_dict.map Prod.fst))
        "" st.env, st.humanList, st.gwCalls + 1, st.rngIdx + 2 + 1 + 1⟩
    simp only at hRh
    obtain ⟨ideas, st1, hB, hBlen, hBg, hBh⟩ := ih stR (by rw [hRh]; exact hhl)
    refine ⟨ideaF :: ideas, st1, ?_, by simp [hBlen], ?_, by rw [hBh, hRh]⟩
    · simp only [branchLoop, elegir_modelo_aleatorio]
      rw [hv_cached ctx { st with rngIdx := st.rngIdx + 2 } hhl]
      simp only [gw_call_any ctx hOr]
      rw [hR]
      simp only [hB]
    · rw [hBg, hRg]
      simp only []
      ring

/-- **C1 (amended).** With the paraphrase cache warm and every underlying
chat call succeeding, `arbol_busqueda_ideas(models_dict, system, X, Y)`
collects an internal list of exactly `X` final Ideas in branch order, makes
exactly `X*(Y+1)` gateway calls for generation and refinement, then makes
the single judge call (the call with index `X*(Y+1)` past the start), and
returns the Judge's verdict string — not the list of Ideas. -/
theorem arbol_busqueda_spec :
    ∀ (ctx : Ctx) (f : Nat → String → String → String) (sys : String)
      (X Y : Nat) (st : PState),
      st.humanList ≠ [] →
      (∀ n s h, ctx.oracle n s h = Except.ok (f n s h)) →
      1 ≤ X →
      ∃ verdict ideas st1,
        arbol_busqueda_ideas sys X Y ctx st = Except.ok ((verdict, ideas), st1) ∧
        ideas.length = X ∧
        st1.gwCalls = st.gwCalls + X * (Y + 1) + 1 ∧
        st1.humanList = st.humanList ∧
        ∃ jp, verdict = f (st.gwCalls + X * (Y + 1)) (escapeErr sys) jp := by
  intro ctx f sys X Y st hhl hOr _
  obtain ⟨ideas, stB, hB, hlen, hBg, hBh⟩ := branchLoop_spec sys Y ctx hOr X st hhl
  have hmem : "googleaistudio" ∈ api_keys.map Prod.fst := by decide
  have hj := gw_call_ok hmem sys
    (formatJuicio X (buildJudgeBlock ideas)) "gemini-2.5-pro" ctx stB (hOr _ _ _)
  refine ⟨f stB.gwCalls (escapeErr sys)
      (escapeErr (formatJuicio X (buildJudgeBlock ideas))), ideas,
    ⟨publishKey "googleaistudio" "" stB.env, stB.humanList, stB.gwCalls + 1,
      stB.rngIdx + 1⟩, ?_, hlen, by simp [hBg], by simpa using hBh, ?_⟩
  · simp only [arbol_busqueda_ideas]
    rw [hB]
    simp only [hj]
  · exact ⟨escapeErr (formatJuicio X (buildJudgeBlock ideas)), by rw [hBg]⟩

/-- The oracle used by the C1 counterexample: the first chat call answers
`"IDEA-A"`, every later one `"VERDICT-B"`. -/
def ctxC : Ctx :=
  ⟨fun n _ _ => Except.ok (if n = 0 then "IDEA-A" else "VERDICT-B"),
   fun _ => 0, "T"⟩

/-- Counterexample for C1 as stated: at `X = 1`, `Y = 0` with a warm cache,
the value `arbol_busqueda_ideas` returns is the judge's verdict
(`"VERDICT-B"`), not the list of final Ideas (`["IDEA-A"]`). -/
theorem arbol_busqueda_spec_cex :
    (arbol_busqueda_ideas "s" 1 0 ctxC stWarm).map Prod.fst =
      Except.ok ("VERDICT-B", ["IDEA-A"]) ∧
    ("VERDICT-B" : String) ≠ "IDEA-A" := by
  refine ⟨?_, by decide⟩
  have hOr : ∀ n s h, ctxC.oracle n s h =
      Except.ok ((fun m (_ : String) (_ : String) =>
        if m = 0 then "IDEA-A" else "VERDICT-B") n s h) := fun _ _ _ => rfl
  have hw : stWarm.humanList ≠ [] := by decide
  have hmem : "googleaistudio" ∈ api_keys.map Prod.fst := by decide
  simp only [arbol_busqueda_ideas, branchLoop, refineLoop, elegir_modelo_aleatorio]
  rw [hv_cached ctxC { stWarm with rngIdx := stWarm.rngIdx + 2 } hw]
  simp only [gw_call_any ctxC hOr]
  rw [gw_call_ok hmem _ _ _ ctxC _ (hOr _ _ _)]
  simp [stWarm, Except.map]

/-- Witness for C1 (amended) at `X = 3`, `Y = 2`. -/
theorem arbol_busqueda_spec_witness :
    ∃ verdict ideas st1,
      arbol_busqueda_ideas "s" 3 2 ctx0 stWarm = Except.ok ((verdict, ideas), st1) ∧
      ideas.length = 3 ∧
      st1.gwCalls = stWarm.gwCalls + 3 * (2 + 1) + 1 ∧
      st1.humanList = stWarm.humanList ∧
      ∃ jp, verdict = (fun (_ : Nat) (_ : String) (_ : String) => "R")
        (stWarm.gwCalls + 3 * (2 + 1)) (escapeErr "s") jp :=
  arbol_busqueda_spec ctx0 (fun _ _ _ => "R") "s" 3 2 stWarm (by decide)
    (fun _ _ _ => rfl) (by decide)
